import Mathlib

/-!
Shallow embedding of `src/cupsfilters/image-jpeg.c` (cups-filters JPEG
image backend): `_cupsImageReadJPEG`, `_cupsImageReadEXIF` and
`trim_spaces`, together with the surrounding data model.

Machine integers are modelled as `Nat`/`Int`: pixel bytes are `Nat`
values below 256 (`cups_ib_t` is an unsigned char), densities are `Nat`
(JFIF density fields are unsigned 16-bit), and the image resolution
fields are `Int` (the `xppi`/`yppi` members are C `int`s and the EXIF
path can store any parsed integer into them).

External collaborators (the libjpeg decoder, libexif, the row-level
colorspace conversion helpers from `image-colorspace.c`, and the image
container's row sink) are modelled as black boxes exactly as the spec
prescribes: the decoder is a scanline producer `Nat → List Nat`, the
conversion helpers are abstract row functions gathered in `ExtFuns`, and
the sink is observed as the list of `PutRowCall` events the routine
emits.
-/

namespace ImageJPEG

/-- The `cups_icspace_t` enumeration of internal colorspaces
(`CUPS_IMAGE_CMYK`, `CUPS_IMAGE_CMY`, `CUPS_IMAGE_BLACK`,
`CUPS_IMAGE_WHITE`, `CUPS_IMAGE_RGB`, `CUPS_IMAGE_RGB_CMYK`). -/
inductive Icspace where
  | CMYK
  | CMY
  | BLACK
  | WHITE
  | RGB
  | RGB_CMYK
  deriving DecidableEq, Repr

/-- The libjpeg `J_COLOR_SPACE` values the module mentions (the
`cspaces` table in the source lists exactly these six). -/
inductive JCS where
  | UNKNOWN
  | GRAYSCALE
  | RGB
  | YCbCr
  | CMYK
  | YCCK
  deriving DecidableEq, Repr

/-- The mutable `cups_image_t` fields this module touches:
target colorspace, pixel dimensions, and resolution. -/
structure Img where
  colorspace : Icspace
  xsize : Nat
  ysize : Nat
  xppi : Int
  yppi : Int
  deriving DecidableEq, Repr

/-- One saved libjpeg marker: its marker code and payload bytes
(`data_length` is the length of `data`). -/
structure Marker where
  marker : Nat
  data : List Nat
  deriving DecidableEq, Repr

/-- The marker code `JPEG_APP0 + 14` (= 0xE0 + 14) of the Adobe application marker. -/
def JPEG_APPE : Nat := 0xE0 + 14

/-- The five bytes of the ASCII signature `Adobe` compared by
`memcmp(marker->data, "Adobe", 5)`. -/
def adobeSig : List Nat := [0x41, 0x64, 0x6F, 0x62, 0x65]

/-- The marker scan of `_cupsImageReadJPEG` (lines 75-81): `psjpeg` is
set iff some saved marker has code `JPEG_APP0 + 14`, a payload of at
least 12 bytes, and a payload starting with the 5-byte `Adobe`
signature. -/
def detectAdobe (markers : List Marker) : Bool :=
  markers.any (fun m =>
    m.marker == JPEG_APPE && m.data.length ≥ 12 && m.data.take 5 == adobeSig)

/-- The decoder-output plan the header branch of `_cupsImageReadJPEG`
commits: libjpeg's `out_color_space`, `out_color_components`,
`output_components`, and the image's target colorspace. -/
structure Plan where
  out_color_space : JCS
  out_color_components : Nat
  output_components : Nat
  colorspace : Icspace
  deriving DecidableEq, Repr

/-- The colorspace planning branch of `_cupsImageReadJPEG`
(lines 89-118): one component decodes as grayscale and targets
`secondary`; four components decode as CMYK and target CMYK when
`primary` is `CUPS_IMAGE_RGB_CMYK`, else `primary`; anything else
decodes as RGB and targets RGB when `primary` is `CUPS_IMAGE_RGB_CMYK`,
else `primary`. -/
def plan (num_components : Nat) (primary secondary : Icspace) : Plan :=
  if num_components = 1 then
    { out_color_space := JCS.GRAYSCALE
      out_color_components := 1
      output_components := 1
      colorspace := secondary }
  else if num_components = 4 then
    { out_color_space := JCS.CMYK
      out_color_components := 4
      output_components := 4
      colorspace := if primary = Icspace.RGB_CMYK then Icspace.CMYK else primary }
  else
    { out_color_space := JCS.RGB
      out_color_components := 3
      output_components := 3
      colorspace := if primary = Icspace.RGB_CMYK then Icspace.RGB else primary }

/-- The dots-per-centimeter conversion of line 146/147:
`(int)((float)density * 2.54)`.  Over the JFIF density range (an
unsigned 16-bit value) the double-precision product `d * 2.54` is
within 3e-12 of the exact rational `d * 254 / 100`, whose distance to
the next lower integer is either 0 or at least 0.02, so the C cast
truncates to exactly `⌊d * 254 / 100⌋`; we embed that exact value. -/
def cmToPpi (density : Nat) : Int :=
  ((density * 254) / 100 : Nat)

/-- The header density resolution of `_cupsImageReadJPEG`
(lines 137-156), acting on the image's current `(xppi, yppi)`: when
both densities and the unit are positive, unit 1 stores the densities
directly and any other unit applies the centimeter conversion, with a
guard resetting a zero result to `(200, 200)`; otherwise the prior
resolution is left untouched. -/
def resolveHeaderDensity (xDensity yDensity densityUnit : Nat)
    (img : Img) : Img :=
  if xDensity > 0 ∧ yDensity > 0 ∧ densityUnit > 0 then
    let img1 :=
      if densityUnit = 1 then
        { img with xppi := (xDensity : Int), yppi := (yDensity : Int) }
      else
        { img with xppi := cmToPpi xDensity, yppi := cmToPpi yDensity }
    if img1.xppi = 0 ∨ img1.yppi = 0 then
      { img1 with xppi := 200, yppi := 200 }
    else img1
  else img

/-- The helper trim_spaces (lines 313-322): the buffer is nul-terminated right
after the last non-space character, i.e. the maximal trailing run of
spaces is removed and everything else (leading and interior spaces
included) is kept. -/
def trim_spaces : List Char → List Char
  | [] => []
  | c :: rest =>
    let t := trim_spaces rest
    if c = ' ' ∧ t = [] then [] else c :: t

/-- Whitespace characters skipped by `sscanf` before a `%d`
conversion. -/
def isSpaceChar (c : Char) : Bool :=
  c = ' ' ∨ c = '\t' ∨ c = '\n' ∨ c = '\r' ∨ c = '\x0b' ∨ c = '\x0c'

/-- Leading decimal digit run of a character list, as a number; `none`
when the list does not start with a digit. -/
def digitsToNat (l : List Char) : Option Nat :=
  let ds := l.takeWhile (fun c => '0' ≤ c ∧ c ≤ '9')
  if ds.isEmpty then none
  else some (ds.foldl (fun a c => a * 10 + (c.toNat - 48)) 0)

/-- The `sscanf(buf, "%d", &n)` conversion used on the EXIF tag text:
skip leading whitespace, accept an optional sign, then require at least
one digit; trailing text is ignored.  `none` models a failed
conversion (no item assigned). -/
def sscanf_d (s : List Char) : Option Int :=
  match s.dropWhile isSpaceChar with
  | '-' :: rest => (digitsToNat rest).map (fun n => -(n : Int))
  | '+' :: rest => (digitsToNat rest).map (fun n => (n : Int))
  | rest => (digitsToNat rest).map (fun n => (n : Int))

/-- One axis of `_cupsImageReadEXIF` (lines 365-379 / 381-395): an
absent tag leaves the prior value; a present tag has its human-readable
text trimmed of trailing spaces, and if the result is non-empty the
`sscanf` result is stored.  (When the non-empty text has no leading
integer the C stores an uninitialized variable; we keep the prior value
there — no claim under verification exercises that case.) -/
def exifAxis (tag : Option (List Char)) (prior : Int) : Int :=
  match tag with
  | none => prior
  | some v =>
    let t := trim_spaces v
    if t = [] then prior
    else
      match sscanf_d t with
      | some n => n
      | none => prior

/-- The structured view of the EXIF block that the libexif collaborator
yields: the optional human-readable values of the IFD-0 X-resolution
and Y-resolution tags. -/
structure ExifData where
  entryX : Option (List Char)
  entryY : Option (List Char)

/-- The routine _cupsImageReadEXIF (lines 324-398) as called from the decode path
(the stream is never NULL there): `none` models
`exif_data_new_from_data` finding no EXIF block (return 2, image
untouched); otherwise each resolution axis is updated independently
from its own tag and 1 is returned. -/
def _cupsImageReadEXIF (img : Img) (ed : Option ExifData) : Int × Img :=
  match ed with
  | none => (2, img)
  | some e =>
    (1, { img with
            xppi := exifAxis e.entryX img.xppi
            yppi := exifAxis e.entryY img.yppi })

/-- The external row-level collaborators (from `image-colorspace.c`),
treated as black-box pure row functions per the spec:
`cupsImageRGBAdjust` and the thirteen colorspace conversion helpers the
dispatch calls. -/
structure ExtFuns where
  rgbAdjust : Int → Int → List Nat → List Nat
  whiteToBlack : List Nat → List Nat
  whiteToRGB : List Nat → List Nat
  whiteToCMY : List Nat → List Nat
  whiteToCMYK : List Nat → List Nat
  rgbToRGB : List Nat → List Nat
  rgbToWhite : List Nat → List Nat
  rgbToBlack : List Nat → List Nat
  rgbToCMY : List Nat → List Nat
  rgbToCMYK : List Nat → List Nat
  cmykToWhite : List Nat → List Nat
  cmykToBlack : List Nat → List Nat
  cmykToCMY : List Nat → List Nat
  cmykToRGB : List Nat → List Nat

/-- The Photoshop CMYK inversion (lines 184-185): every byte of the row
buffer is replaced by `255 - byte` (bytes are below 256). -/
def invertRow (row : List Nat) : List Nat :=
  row.map (fun b => 255 - b)

/-- The effect of cupsImageLut on a row when a lookup table is supplied: each byte
is mapped through the table; no table means the row is untouched. -/
def applyLut (lut : Option (Nat → Nat)) (row : List Nat) : List Nat :=
  match lut with
  | none => row
  | some f => row.map f

/-- The per-decode configuration the scanline loop reads: the quirk
flag, the committed plan, the caller's adjustments and the row width. -/
structure Config where
  psjpeg : Bool
  out_color_space : JCS
  output_components : Nat
  colorspace : Icspace
  saturation : Int
  hue : Int
  lut : Option (Nat → Nat)
  xsize : Nat

/-- The two in-place transforms at the top of the scanline loop
(lines 175-189): the Photoshop inversion when the quirk flag is set and
the decoder emits 4 components, then `cupsImageRGBAdjust` when
saturation or hue is non-neutral and the decoder emits 3 components. -/
def rowTransform (ext : ExtFuns) (cfg : Config) (row : List Nat) : List Nat :=
  let in1 :=
    if cfg.psjpeg ∧ cfg.output_components = 4 then invertRow row else row
  if (cfg.saturation ≠ 100 ∨ cfg.hue ≠ 0) ∧ cfg.output_components = 3 then
    ext.rgbAdjust cfg.saturation cfg.hue in1
  else in1

/-- One `_cupsImagePutRow` invocation observed at the sink: the x
offset, row index, width and pixel data passed. -/
structure PutRowCall where
  x : Nat
  y : Nat
  width : Nat
  data : List Nat
  deriving DecidableEq, Repr

/-- The body of one scanline-loop iteration (lines 175-299) after the
row has been read into the input buffer: the in-place transforms run,
then either the direct path selects the input row (optionally through
the lookup table, leaving the persistent output buffer alone), or the
branch for the decoder colorspace runs its dispatch switch into the
output buffer — an unlisted target leaves that buffer as it was — and
applies the optional lookup table to the output buffer in place.
Returns the pixel data passed to `_cupsImagePutRow` for this row and
the output buffer contents after the iteration. -/
def processRowData (ext : ExtFuns) (cfg : Config) (row outBuf : List Nat) :
    List Nat × List Nat :=
  let in2 := rowTransform ext cfg row
  if (cfg.colorspace = Icspace.WHITE ∧ cfg.out_color_space = JCS.GRAYSCALE) ∨
     (cfg.colorspace = Icspace.CMYK ∧ cfg.out_color_space = JCS.CMYK) then
    (applyLut cfg.lut in2, outBuf)
  else if cfg.out_color_space = JCS.GRAYSCALE then
    let o :=
      match cfg.colorspace with
      | Icspace.BLACK => ext.whiteToBlack in2
      | Icspace.RGB => ext.whiteToRGB in2
      | Icspace.CMY => ext.whiteToCMY in2
      | Icspace.CMYK => ext.whiteToCMYK in2
      | _ => outBuf
    (applyLut cfg.lut o, applyLut cfg.lut o)
  else if cfg.out_color_space = JCS.RGB then
    let o :=
      match cfg.colorspace with
      | Icspace.RGB => ext.rgbToRGB in2
      | Icspace.WHITE => ext.rgbToWhite in2
      | Icspace.BLACK => ext.rgbToBlack in2
      | Icspace.CMY => ext.rgbToCMY in2
      | Icspace.CMYK => ext.rgbToCMYK in2
      | _ => outBuf
    (applyLut cfg.lut o, applyLut cfg.lut o)
  else
    let o :=
      match cfg.colorspace with
      | Icspace.WHITE => ext.cmykToWhite in2
      | Icspace.BLACK => ext.cmykToBlack in2
      | Icspace.CMY => ext.cmykToCMY in2
      | Icspace.RGB => ext.cmykToRGB in2
      | _ => outBuf
    (applyLut cfg.lut o, applyLut cfg.lut o)

/-- One full scanline-loop iteration: every branch of the loop body
ends in `_cupsImagePutRow(img, 0, scanline - 1, img->xsize, buf)`, so
the sink call always carries x offset 0, the row index and the full
row width, with only the pixel data varying by branch. -/
def processRow (ext : ExtFuns) (cfg : Config) (row outBuf : List Nat)
    (y : Nat) : PutRowCall × List Nat :=
  let p := processRowData ext cfg row outBuf
  (⟨0, y, cfg.xsize, p.1⟩, p.2)

/-- The scanline loop: with `remaining` rows left and the next row
index `y`, read row `y` from the decoder, process it, and continue with
the updated output buffer.  Returns the sink calls in order. -/
def decodeFrom (ext : ExtFuns) (cfg : Config) (rows : Nat → List Nat) :
    Nat → Nat → List Nat → List PutRowCall
  | 0, _, _ => []
  | n + 1, y, outBuf =>
    let pr := processRow ext cfg (rows y) outBuf y
    pr.1 :: decodeFrom ext cfg rows n (y + 1) pr.2

/-- The header fields `_cupsImageReadJPEG` reads after
`jpeg_read_header` and `jpeg_calc_output_dimensions`: component count,
output dimensions (`JDIMENSION` is unsigned), the JFIF density fields
(unsigned, with the 8-bit unit) and the saved marker list. -/
structure JpegHeader where
  num_components : Nat
  output_width : Nat
  output_height : Nat
  xDensity : Nat
  yDensity : Nat
  densityUnit : Nat
  markers : List Marker

/-- Everything observable about one `_cupsImageReadJPEG` call: the
returned status, the image as left by the routine, the ordered
`_cupsImagePutRow` calls, and whether `jpeg_destroy_decompress` and
`fclose` ran before returning. -/
structure ReadResult where
  status : Int
  img : Img
  calls : List PutRowCall
  destroyed : Bool
  closed : Bool

/-- The routine _cupsImageReadJPEG (lines 32-311).  The black-box decoder is the
header it reported plus the scanline producer `rows`; `outBuf0` is the
arbitrary initial content of the freshly malloc'd output scratch
buffer; `maxWidth`/`maxHeight` stand for `CUPS_IMAGE_MAX_WIDTH` /
`CUPS_IMAGE_MAX_HEIGHT` (defined in `image-private.h`, outside this
module).  The routine detects the Adobe quirk, commits the colorspace
plan, validates geometry (failure: status 1 after destroying the
decoder and closing the stream, no sink call), commits dimensions,
resolves the header density, always runs the EXIF reader, then runs
the scanline loop and returns status 0 with the decoder destroyed and
the stream closed. -/
def _cupsImageReadJPEG (ext : ExtFuns) (maxWidth maxHeight : Nat)
    (hdr : JpegHeader) (exif : Option ExifData) (rows : Nat → List Nat)
    (outBuf0 : List Nat) (img0 : Img)
    (primary secondary : Icspace) (saturation hue : Int)
    (lut : Option (Nat → Nat)) : ReadResult :=
  let psjpeg := detectAdobe hdr.markers
  let p := plan hdr.num_components primary secondary
  let img1 := { img0 with colorspace := p.colorspace }
  if hdr.output_width = 0 ∨ hdr.output_width > maxWidth ∨
     hdr.output_height = 0 ∨ hdr.output_height > maxHeight then
    { status := 1, img := img1, calls := [], destroyed := true, closed := true }
  else
    let img2 :=
      { img1 with xsize := hdr.output_width, ysize := hdr.output_height }
    let img3 :=
      resolveHeaderDensity hdr.xDensity hdr.yDensity hdr.densityUnit img2
    let img4 := (_cupsImageReadEXIF img3 exif).2
    let cfg : Config :=
      { psjpeg := psjpeg
        out_color_space := p.out_color_space
        output_components := p.output_components
        colorspace := p.colorspace
        saturation := saturation
        hue := hue
        lut := lut
        xsize := img4.xsize }
    { status := 0
      img := img4
      calls := decodeFrom ext cfg rows hdr.output_height 0 outBuf0
      destroyed := true
      closed := true }

/-- The direct-path test of lines 191-192: the raw row already matches
the target representation when the target is `CUPS_IMAGE_WHITE` with a
grayscale decoder or `CUPS_IMAGE_CMYK` with a CMYK decoder. -/
def directPath (jcs : JCS) (cs : Icspace) : Bool :=
  (cs == Icspace.WHITE && jcs == JCS.GRAYSCALE) ||
    (cs == Icspace.CMYK && jcs == JCS.CMYK)

/-- Whether the dispatch switch of the scanline loop lists a conversion
for the (decoder colorspace, target colorspace) pair, mirroring the
`if`/`else if`/`else` chain and the `case` labels of lines 217-299
(targets falling into a `default: break` are unlisted). -/
def dispatchHandled (jcs : JCS) (cs : Icspace) : Bool :=
  match jcs, cs with
  | JCS.GRAYSCALE, Icspace.BLACK => true
  | JCS.GRAYSCALE, Icspace.RGB => true
  | JCS.GRAYSCALE, Icspace.CMY => true
  | JCS.GRAYSCALE, Icspace.CMYK => true
  | JCS.GRAYSCALE, _ => false
  | JCS.RGB, Icspace.RGB => true
  | JCS.RGB, Icspace.WHITE => true
  | JCS.RGB, Icspace.BLACK => true
  | JCS.RGB, Icspace.CMY => true
  | JCS.RGB, Icspace.CMYK => true
  | JCS.RGB, _ => false
  | _, Icspace.WHITE => true
  | _, Icspace.BLACK => true
  | _, Icspace.CMY => true
  | _, Icspace.RGB => true
  | _, _ => false

/-- The centimeter conversion as the spec words it — `round(density ×
2.54)`, the nearest integer — stated here only to be compared with the
source's truncating conversion `cmToPpi`. -/
def roundCmPpi (density : Nat) : Int :=
  ((density * 254 + 50) / 100 : Nat)

/-- Modelled from the spec: the image-loading façade that owns the
`cups_image_t` (outside this module's source) hands the backend an
image whose resolution pair is already the 200 default; the colorspace
and dimensions are overwritten by this routine before use. -/
def imgInit : Img :=
  { colorspace := Icspace.RGB, xsize := 0, ysize := 0, xppi := 200, yppi := 200 }

/-- A concrete instance of the black-box row collaborators, used to
evaluate the embedding at concrete inputs: every conversion helper is
the identity on the row. -/
def idExt : ExtFuns where
  rgbAdjust := fun _ _ r => r
  whiteToBlack := id
  whiteToRGB := id
  whiteToCMY := id
  whiteToCMYK := id
  rgbToRGB := id
  rgbToWhite := id
  rgbToBlack := id
  rgbToCMY := id
  rgbToCMYK := id
  cmykToWhite := id
  cmykToBlack := id
  cmykToCMY := id
  cmykToRGB := id

/-- C3: the colorspace plan is a pure function of
(numComponents, primary, secondary): one component yields a grayscale
decoder with 1 channel targeting `secondary` regardless of `primary`;
four components yield a CMYK decoder with 4 channels targeting CMYK
when `primary` is the RGB-or-CMYK choice and `primary` otherwise; any
other component count yields an RGB decoder with 3 channels targeting
RGB when `primary` is the RGB-or-CMYK choice and `primary` otherwise. -/
theorem C3_plan_cases (n : Nat) (primary secondary : Icspace) :
    (n = 1 → plan n primary secondary =
      { out_color_space := JCS.GRAYSCALE
        out_color_components := 1
        output_components := 1
        colorspace := secondary }) ∧
    (n = 4 → plan n primary secondary =
      { out_color_space := JCS.CMYK
        out_color_components := 4
        output_components := 4
        colorspace :=
          if primary = Icspace.RGB_CMYK then Icspace.CMYK else primary }) ∧
    (n ≠ 1 → n ≠ 4 → plan n primary secondary =
      { out_color_space := JCS.RGB
        out_color_components := 3
        output_components := 3
        colorspace :=
          if primary = Icspace.RGB_CMYK then Icspace.RGB else primary }) := by
  refine ⟨fun h => ?_, fun h => ?_, fun h1 h2 => ?_⟩
  · subst h; simp [plan]
  · subst h; simp [plan]
  · simp [plan, h1, h2]

/-- Witness for C3 at the spec's example input: one component with
`secondary` = Black plans a grayscale decode targeting Black. -/
theorem C3_plan_cases_witness :
    plan 1 Icspace.RGB_CMYK Icspace.BLACK =
      { out_color_space := JCS.GRAYSCALE
        out_color_components := 1
        output_components := 1
        colorspace := Icspace.BLACK } :=
  (C3_plan_cases 1 Icspace.RGB_CMYK Icspace.BLACK).1 rfl

/-- C10: the Photoshop byte inversion and the saturation/hue
adjustment are mutually exclusive for the whole image — the inversion
requires 4 decoder components and the adjustment exactly 3, so when
the inversion applies the transformed row is exactly the inversion
(no adjustment), and when the adjustment applies it is exactly the
adjustment (no inversion). -/
theorem C10_quirk_adjust_exclusive (ext : ExtFuns) (cfg : Config)
    (row : List Nat) :
    (cfg.psjpeg = true → cfg.output_components = 4 →
      rowTransform ext cfg row = invertRow row) ∧
    ((cfg.saturation ≠ 100 ∨ cfg.hue ≠ 0) → cfg.output_components = 3 →
      rowTransform ext cfg row = ext.rgbAdjust cfg.saturation cfg.hue row) := by
  constructor
  · intro h1 h2
    simp [rowTransform, h1, h2]
  · intro h1 h2
    rcases h1 with h1 | h1 <;> simp [rowTransform, h1, h2]

/-- Witness for C10: with the quirk flag set on a 4-component decode
(and non-neutral saturation and hue supplied), the row transform is
the plain inversion. -/
theorem C10_quirk_adjust_exclusive_witness :
    rowTransform idExt
      { psjpeg := true, out_color_space := JCS.CMYK, output_components := 4
        colorspace := Icspace.CMYK, saturation := 50, hue := 10
        lut := none, xsize := 1 } [10, 20, 30, 40] =
      invertRow [10, 20, 30, 40] :=
  (C10_quirk_adjust_exclusive idExt _ [10, 20, 30, 40]).1 rfl rfl

/-- C6: with decoder colorspace CMYK, target CMYK and the quirk flag
set, each byte of the row is replaced by 255 − b and the resulting row
is written via the direct path with only the optional lookup table
applied — no channel remap — and the output scratch buffer is left
untouched. -/
theorem C6_adobe_cmyk_direct (ext : ExtFuns) (cfg : Config)
    (row outBuf : List Nat) (y : Nat)
    (hps : cfg.psjpeg = true) (hc : cfg.output_components = 4)
    (hcs : cfg.colorspace = Icspace.CMYK)
    (hout : cfg.out_color_space = JCS.CMYK) :
    processRow ext cfg row outBuf y =
      (⟨0, y, cfg.xsize, applyLut cfg.lut (invertRow row)⟩, outBuf) := by
  simp [processRow, processRowData, rowTransform, hps, hc, hcs, hout]

/-- Witness for C6 at the spec's example row: [10, 20, 30, 40] is
written as [245, 235, 225, 215]. -/
theorem C6_adobe_cmyk_direct_witness :
    processRow idExt
      { psjpeg := true, out_color_space := JCS.CMYK, output_components := 4
        colorspace := Icspace.CMYK, saturation := 100, hue := 0
        lut := none, xsize := 1 } [10, 20, 30, 40] [0, 0, 0, 0] 0 =
      (⟨0, 0, 1, [245, 235, 225, 215]⟩, [0, 0, 0, 0]) := by
  have h := C6_adobe_cmyk_direct idExt
    { psjpeg := true, out_color_space := JCS.CMYK, output_components := 4
      colorspace := Icspace.CMYK, saturation := 100, hue := 0
      lut := none, xsize := 1 } [10, 20, 30, 40] [0, 0, 0, 0] 0 rfl rfl rfl rfl
  rw [h]; rfl

/-- C7 counterexample: the code truncates the centimeter conversion,
so densities (3, 3) with unit 2 resolve to 7 ppi per axis while the
claimed round(3 × 2.54) is 8. -/
theorem C7_counterexample :
    (resolveHeaderDensity 3 3 2 imgInit).xppi = 7 ∧
    roundCmPpi 3 = 8 ∧
    (resolveHeaderDensity 3 3 2 imgInit).xppi ≠ roundCmPpi 3 := by decide

/-- C7 amended: for positive densities with unit 2 the resolved ppi on
each axis is the truncation of density × 2.54, i.e. ⌊density·254/100⌋
(rounding toward zero, not to nearest). -/
theorem C7_cm_truncates (x y : Nat) (img : Img) (hx : 0 < x) (hy : 0 < y) :
    (resolveHeaderDensity x y 2 img).xppi = (((x * 254) / 100 : Nat) : Int) ∧
    (resolveHeaderDensity x y 2 img).yppi = (((y * 254) / 100 : Nat) : Int) := by
  have hx0 : ¬((x : Int) * 254 / 100 = 0) := by omega
  have hy0 : ¬((y : Int) * 254 / 100 = 0) := by omega
  simp [resolveHeaderDensity, cmToPpi, hx, hy, hx0, hy0]

/-- Witness for C7 amended at the spec's example: densities (100, 100)
with unit 2 resolve to (254, 254), where truncation and rounding
agree. -/
theorem C7_cm_truncates_witness :
    (resolveHeaderDensity 100 100 2 imgInit).xppi = 254 ∧
    (resolveHeaderDensity 100 100 2 imgInit).yppi = 254 := by
  have h := C7_cm_truncates 100 100 imgInit (by decide) (by decide)
  simpa using h

/-- A run of spaces trims to nothing. -/
theorem trim_spaces_replicate (k : Nat) :
    trim_spaces (List.replicate k ' ') = [] := by
  induction k with
  | zero => rfl
  | succ n ih => simp [List.replicate_succ, trim_spaces, ih]

/-- Trailing padding spaces do not affect the trimmed text. -/
theorem trim_spaces_append_spaces (v : List Char) (k : Nat) :
    trim_spaces (v ++ List.replicate k ' ') = trim_spaces v := by
  induction v with
  | nil => simpa using trim_spaces_replicate k
  | cons c rest ih => simp [trim_spaces, ih]

/-- C8: the fallback resolution axes are handled independently — the
final x resolution is a function of the X tag and prior x value alone,
and symmetrically for y; an absent tag leaves its axis's prior value;
trailing padding spaces on a tag's text are trimmed away before
parsing; and a tag whose trimmed text parses overrides its axis with
the parsed value. -/
theorem C8_exif_axes_independent (img : Img) (ed : ExifData) :
    ((_cupsImageReadEXIF img (some ed)).2.xppi = exifAxis ed.entryX img.xppi ∧
     (_cupsImageReadEXIF img (some ed)).2.yppi = exifAxis ed.entryY img.yppi) ∧
    (ed.entryX = none → (_cupsImageReadEXIF img (some ed)).2.xppi = img.xppi) ∧
    (ed.entryY = none → (_cupsImageReadEXIF img (some ed)).2.yppi = img.yppi) ∧
    (∀ (v : List Char) (k : Nat) (p : Int),
      exifAxis (some (v ++ List.replicate k ' ')) p = exifAxis (some v) p) ∧
    (∀ (v : List Char) (n : Int) (p : Int),
      sscanf_d (trim_spaces v) = some n → exifAxis (some v) p = n) := by
  refine ⟨⟨rfl, rfl⟩, ?_, ?_, ?_, ?_⟩
  · intro h; simp [_cupsImageReadEXIF, exifAxis, h]
  · intro h; simp [_cupsImageReadEXIF, exifAxis, h]
  · intro v k p
    simp [exifAxis, trim_spaces_append_spaces]
  · intro v n p h
    have hne : ¬trim_spaces v = [] := by
      intro h0
      rw [h0] at h
      simp [sscanf_d, digitsToNat] at h
    simp [exifAxis, hne, h]

/-- Witness for C8 at the spec's example: an X-resolution value of
`72` followed by two padding spaces resolves that axis to 72. -/
theorem C8_exif_axes_independent_witness :
    exifAxis (some ['7', '2', ' ', ' ']) 200 = 72 := by
  have h := (C8_exif_axes_independent imgInit ⟨none, none⟩).2.2.2.2
  exact h ['7', '2', ' ', ' '] 72 200 (by decide)

/-- C2 counterexample: a single-component decode whose target is the
RGB-or-CMYK choice (taken as `secondary`) gives the pair
(Grayscale, RGB_CMYK), which has no dispatch entry and no direct path;
the claim says no pixel data is written for such a scanline, yet the
decode of a 1-row image performs exactly one sink write, carrying the
output scratch buffer's initial contents. -/
theorem C2_counterexample :
    dispatchHandled JCS.GRAYSCALE Icspace.RGB_CMYK = false ∧
    directPath JCS.GRAYSCALE Icspace.RGB_CMYK = false ∧
    (_cupsImageReadJPEG idExt 1000 1000 ⟨1, 2, 1, 0, 0, 0, []⟩ none
        (fun _ => [5, 6]) [9, 9] imgInit Icspace.WHITE Icspace.RGB_CMYK
        100 0 none).calls =
      [⟨0, 0, 2, [9, 9]⟩] := by decide

/-- C2 amended: for a (decoder colorspace, target colorspace) pair with
no dispatch entry and no direct path, the conversion is skipped but the
sink write still happens — the row write carries the output scratch
buffer's existing contents passed through the optional lookup table,
independent of the decoded row's pixels. -/
theorem C2_unhandled_still_writes (ext : ExtFuns) (cfg : Config)
    (row outBuf : List Nat) (y : Nat)
    (hd : directPath cfg.out_color_space cfg.colorspace = false)
    (hh : dispatchHandled cfg.out_color_space cfg.colorspace = false) :
    processRow ext cfg row outBuf y =
      (⟨0, y, cfg.xsize, applyLut cfg.lut outBuf⟩, applyLut cfg.lut outBuf) := by
  obtain ⟨ps, ocs, oc, cs, sat, hu, lut, xs⟩ := cfg
  cases ocs <;> cases cs <;>
    simp_all [processRow, processRowData, directPath, dispatchHandled]

/-- Witness for C2 amended: the (Grayscale, RGB_CMYK) pair writes the
stale output buffer. -/
theorem C2_unhandled_still_writes_witness :
    processRow idExt
      { psjpeg := false, out_color_space := JCS.GRAYSCALE
        output_components := 1, colorspace := Icspace.RGB_CMYK
        saturation := 100, hue := 0, lut := none, xsize := 2 }
      [5, 6] [9, 9] 0 =
      (⟨0, 0, 2, [9, 9]⟩, [9, 9]) := by
  have h := C2_unhandled_still_writes idExt
    { psjpeg := false, out_color_space := JCS.GRAYSCALE
      output_components := 1, colorspace := Icspace.RGB_CMYK
      saturation := 100, hue := 0, lut := none, xsize := 2 }
    [5, 6] [9, 9] 0 rfl rfl
  rw [h]; rfl

/-- C5: when the computed output width or height is zero or exceeds
the platform maximum, the routine returns status 1 with no sink
invocation and the decoder destroyed; and on every path — failure or
success — the input stream is closed before returning. -/
theorem C5_geometry_and_close (ext : ExtFuns) (maxW maxH : Nat)
    (hdr : JpegHeader) (exif : Option ExifData) (rows : Nat → List Nat)
    (outBuf0 : List Nat) (img0 : Img) (primary secondary : Icspace)
    (saturation hue : Int) (lut : Option (Nat → Nat)) :
    ((hdr.output_width = 0 ∨ hdr.output_width > maxW ∨
      hdr.output_height = 0 ∨ hdr.output_height > maxH) →
      (_cupsImageReadJPEG ext maxW maxH hdr exif rows outBuf0 img0
          primary secondary saturation hue lut).status = 1 ∧
      (_cupsImageReadJPEG ext maxW maxH hdr exif rows outBuf0 img0
          primary secondary saturation hue lut).calls = [] ∧
      (_cupsImageReadJPEG ext maxW maxH hdr exif rows outBuf0 img0
          primary secondary saturation hue lut).destroyed = true) ∧
    (_cupsImageReadJPEG ext maxW maxH hdr exif rows outBuf0 img0
        primary secondary saturation hue lut).closed = true := by
  constructor
  · intro h
    simp only [_cupsImageReadJPEG]
    rw [if_pos h]
    exact ⟨rfl, rfl, rfl⟩
  · simp only [_cupsImageReadJPEG]
    split <;> rfl

/-- Witness for C5 at a zero output width: status 1, no sink call,
decoder destroyed, stream closed. -/
theorem C5_geometry_and_close_witness :
    (_cupsImageReadJPEG idExt 1000 1000 ⟨3, 0, 5, 0, 0, 0, []⟩ none
        (fun _ => []) [] imgInit Icspace.RGB Icspace.WHITE 100 0 none).status
      = 1 ∧
    (_cupsImageReadJPEG idExt 1000 1000 ⟨3, 0, 5, 0, 0, 0, []⟩ none
        (fun _ => []) [] imgInit Icspace.RGB Icspace.WHITE 100 0 none).calls
      = [] ∧
    (_cupsImageReadJPEG idExt 1000 1000 ⟨3, 0, 5, 0, 0, 0, []⟩ none
        (fun _ => []) [] imgInit Icspace.RGB Icspace.WHITE 100 0 none).destroyed
      = true :=
  (C5_geometry_and_close idExt 1000 1000 ⟨3, 0, 5, 0, 0, 0, []⟩ none
      (fun _ => []) [] imgInit Icspace.RGB Icspace.WHITE 100 0 none).1
    (Or.inl rfl)

/-- The row indices in the sink calls of the scanline loop count up
from the starting index, one per remaining row. -/
theorem decodeFrom_map_y (ext : ExtFuns) (cfg : Config)
    (rows : Nat → List Nat) :
    ∀ (n y : Nat) (outBuf : List Nat),
      (decodeFrom ext cfg rows n y outBuf).map (fun c => c.y) =
        List.range' y n := by
  intro n
  induction n with
  | zero => intro y outBuf; rfl
  | succ m ih =>
    intro y outBuf
    simp [decodeFrom, List.range'_succ, ih, processRow]

/-- The scanline loop emits one sink call per remaining row. -/
theorem decodeFrom_length (ext : ExtFuns) (cfg : Config)
    (rows : Nat → List Nat) :
    ∀ (n y : Nat) (outBuf : List Nat),
      (decodeFrom ext cfg rows n y outBuf).length = n := by
  intro n
  induction n with
  | zero => intro y outBuf; rfl
  | succ m ih =>
    intro y outBuf
    simp [decodeFrom, ih]

/-- Every sink call of the scanline loop carries x offset 0 and the
full row width. -/
theorem decodeFrom_x_width (ext : ExtFuns) (cfg : Config)
    (rows : Nat → List Nat) :
    ∀ (n y : Nat) (outBuf : List Nat),
      ∀ c ∈ decodeFrom ext cfg rows n y outBuf,
        c.x = 0 ∧ c.width = cfg.xsize := by
  intro n
  induction n with
  | zero =>
    intro y outBuf c hc
    simp [decodeFrom] at hc
  | succ m ih =>
    intro y outBuf c hc
    simp only [decodeFrom, List.mem_cons] at hc
    rcases hc with hc | hc
    · subst hc; exact ⟨rfl, rfl⟩
    · exact ih (y + 1) _ c hc

/-- Unfolding of `_cupsImageReadJPEG` on the good-geometry path: the
status is 0, the image is the one produced by the colorspace plan, the
geometry commit, the header density resolution and the EXIF pass — in
that order, before any row processing — and the sink calls are those
of the scanline loop run over all `output_height` rows. -/
theorem readJPEG_success (ext : ExtFuns) (maxW maxH : Nat)
    (hdr : JpegHeader) (exif : Option ExifData) (rows : Nat → List Nat)
    (outBuf0 : List Nat) (img0 : Img) (primary secondary : Icspace)
    (saturation hue : Int) (lut : Option (Nat → Nat))
    (h : ¬(hdr.output_width = 0 ∨ hdr.output_width > maxW ∨
           hdr.output_height = 0 ∨ hdr.output_height > maxH)) :
    _cupsImageReadJPEG ext maxW maxH hdr exif rows outBuf0 img0
        primary secondary saturation hue lut =
      { status := 0
        img := (_cupsImageReadEXIF
          (resolveHeaderDensity hdr.xDensity hdr.yDensity hdr.densityUnit
            { img0 with
                colorspace := (plan hdr.num_components primary secondary).colorspace
                xsize := hdr.output_width
                ysize := hdr.output_height }) exif).2
        calls := decodeFrom ext
          { psjpeg := detectAdobe hdr.markers
            out_color_space := (plan hdr.num_components primary secondary).out_color_space
            output_components := (plan hdr.num_components primary secondary).output_components
            colorspace := (plan hdr.num_components primary secondary).colorspace
            saturation := saturation
            hue := hue
            lut := lut
            xsize := ((_cupsImageReadEXIF
              (resolveHeaderDensity hdr.xDensity hdr.yDensity hdr.densityUnit
                { img0 with
                    colorspace := (plan hdr.num_components primary secondary).colorspace
                    xsize := hdr.output_width
                    ysize := hdr.output_height }) exif).2).xsize }
          rows hdr.output_height 0 outBuf0
        destroyed := true
        closed := true } := by
  simp only [_cupsImageReadJPEG]
  rw [if_neg h]

/-- C9: on the good-geometry (successful) path the sink's write-row
operation is called exactly once per source row — `output_height` calls
in total — with row indices 0 through height − 1 in strictly
increasing order, x offset 0 and the image's full width. -/
theorem C9_one_putrow_per_row (ext : ExtFuns) (maxW maxH : Nat)
    (hdr : JpegHeader) (exif : Option ExifData) (rows : Nat → List Nat)
    (outBuf0 : List Nat) (img0 : Img) (primary secondary : Icspace)
    (saturation hue : Int) (lut : Option (Nat → Nat)) (r : ReadResult)
    (hr : r = _cupsImageReadJPEG ext maxW maxH hdr exif rows outBuf0 img0
        primary secondary saturation hue lut)
    (hgeom : ¬(hdr.output_width = 0 ∨ hdr.output_width > maxW ∨
               hdr.output_height = 0 ∨ hdr.output_height > maxH)) :
    r.status = 0 ∧
    r.calls.length = hdr.output_height ∧
    r.calls.map (fun c => c.y) = List.range hdr.output_height ∧
    List.Pairwise (· < ·) (r.calls.map (fun c => c.y)) ∧
    (∀ c ∈ r.calls, c.x = 0 ∧ c.width = r.img.xsize) := by
  subst hr
  rw [readJPEG_success ext maxW maxH hdr exif rows outBuf0 img0
      primary secondary saturation hue lut hgeom]
  refine ⟨rfl, decodeFrom_length _ _ _ _ _ _, ?_, ?_, ?_⟩
  · rw [decodeFrom_map_y, List.range_eq_range']
  · rw [decodeFrom_map_y]
    exact List.pairwise_lt_range' _ _
  · intro c hc
    exact decodeFrom_x_width _ _ _ _ _ _ c hc

/-- Witness for C9: a 3-row decode performs exactly the three writes
for rows 0, 1, 2 at x offset 0 and width 2. -/
theorem C9_one_putrow_per_row_witness :
    (_cupsImageReadJPEG idExt 1000 1000 ⟨3, 2, 3, 0, 0, 0, []⟩ none
        (fun _ => [1, 2, 3, 4, 5, 6]) [0] imgInit Icspace.RGB
        Icspace.WHITE 100 0 none).status = 0 ∧
    (_cupsImageReadJPEG idExt 1000 1000 ⟨3, 2, 3, 0, 0, 0, []⟩ none
        (fun _ => [1, 2, 3, 4, 5, 6]) [0] imgInit Icspace.RGB
        Icspace.WHITE 100 0 none).calls.length = 3 ∧
    (_cupsImageReadJPEG idExt 1000 1000 ⟨3, 2, 3, 0, 0, 0, []⟩ none
        (fun _ => [1, 2, 3, 4, 5, 6]) [0] imgInit Icspace.RGB
        Icspace.WHITE 100 0 none).calls.map (fun c => c.y) = List.range 3 := by
  have h := C9_one_putrow_per_row idExt 1000 1000 ⟨3, 2, 3, 0, 0, 0, []⟩ none
    (fun _ => [1, 2, 3, 4, 5, 6]) [0] imgInit Icspace.RGB Icspace.WHITE
    100 0 none _ rfl (by decide)
  exact ⟨h.1, h.2.1, h.2.2.1⟩

/-- The EXIF pass updates the x resolution from the X tag alone (a
missing EXIF block behaves like an absent tag). -/
theorem readEXIF_xppi (img : Img) (exif : Option ExifData) :
    (_cupsImageReadEXIF img exif).2.xppi =
      exifAxis (exif.bind ExifData.entryX) img.xppi := by
  cases exif <;> rfl

/-- The EXIF pass updates the y resolution from the Y tag alone. -/
theorem readEXIF_yppi (img : Img) (exif : Option ExifData) :
    (_cupsImageReadEXIF img exif).2.yppi =
      exifAxis (exif.bind ExifData.entryY) img.yppi := by
  cases exif <;> rfl

/-- With positive densities and unit 1, the header resolution stores
the densities directly. -/
theorem resolveHeaderDensity_unit1 (x y : Nat) (img : Img)
    (hx : 0 < x) (hy : 0 < y) :
    (resolveHeaderDensity x y 1 img).xppi = x ∧
    (resolveHeaderDensity x y 1 img).yppi = y := by
  have hx0 : ¬((x : Int) = 0) := by omega
  have hy0 : ¬((y : Int) = 0) := by omega
  simp [resolveHeaderDensity, hx, hy, hx0, hy0]

/-- With absent or invalid density fields, the header resolution leaves
the image untouched. -/
theorem resolveHeaderDensity_invalid (x y u : Nat) (img : Img)
    (h : ¬(x > 0 ∧ y > 0 ∧ u > 0)) :
    resolveHeaderDensity x y u img = img := by
  simp [resolveHeaderDensity, h]

/-- The header resolution keeps the resolution at 1 or above when the
prior values are. -/
theorem resolveHeaderDensity_pos (x y u : Nat) (img : Img)
    (hx : 1 ≤ img.xppi) (hy : 1 ≤ img.yppi) :
    1 ≤ (resolveHeaderDensity x y u img).xppi ∧
    1 ≤ (resolveHeaderDensity x y u img).yppi := by
  simp only [resolveHeaderDensity, cmToPpi]
  split_ifs with h1 h2 h3 h4 <;> constructor <;> (try simp) <;> omega

/-- One EXIF axis stays at 1 or above when the prior value is and
every parsable tag value is. -/
theorem exifAxis_pos (tag : Option (List Char)) (prior : Int)
    (hp : 1 ≤ prior)
    (h : ∀ (v : List Char) (n : Int),
      tag = some v → sscanf_d (trim_spaces v) = some n → 1 ≤ n) :
    1 ≤ exifAxis tag prior := by
  cases tag with
  | none => exact hp
  | some v =>
    simp only [exifAxis]
    split
    · exact hp
    · rcases hs : sscanf_d (trim_spaces v) with _ | n
      · exact hp
      · exact h v n rfl hs

/-- C1 counterexample: with valid header density fields (100, 100,
unit 1) — which alone resolve the x axis to 100 — an EXIF block whose
X-resolution tag reads `72` leaves the decode with xppi = 72: the
fallback metadata path runs even though the header fields are valid,
and overrides them. -/
theorem C1_counterexample :
    ((0 : Nat) < 100 ∧ (0 : Nat) < 100 ∧ (0 : Nat) < 1) ∧
    (resolveHeaderDensity 100 100 1 imgInit).xppi = 100 ∧
    (_cupsImageReadJPEG idExt 1000 1000 ⟨3, 1, 1, 100, 100, 1, []⟩
        (some ⟨some ['7', '2'], none⟩) (fun _ => [0, 0, 0]) [] imgInit
        Icspace.RGB Icspace.WHITE 100 0 none).img.xppi = 72 ∧
    (_cupsImageReadJPEG idExt 1000 1000 ⟨3, 1, 1, 100, 100, 1, []⟩
        (some ⟨some ['7', '2'], none⟩) (fun _ => [0, 0, 0]) [] imgInit
        Icspace.RGB Icspace.WHITE 100 0 none).img.xppi ≠
      (resolveHeaderDensity 100 100 1 imgInit).xppi := by decide

/-- C1 amended: for every decode, the committed image — colorspace,
geometry and resolution — is independent of the decoded rows and of
the scratch buffer, so the resolution is committed before any row is
written; and for every decode that reaches row processing, whatever
the header density fields (absent, invalid, unit 1 or the centimeter
unit), each final resolution axis equals the EXIF update of the
header-derived value: the fallback metadata path is consulted
unconditionally, and a successfully parsed tag overrides the
header-derived value for its axis even when the header density fields
are valid. -/
theorem C1_exif_overrides_header (ext : ExtFuns) (maxW maxH : Nat)
    (hdr : JpegHeader) (exif : Option ExifData) (rows : Nat → List Nat)
    (outBuf0 : List Nat) (img0 : Img) (primary secondary : Icspace)
    (saturation hue : Int) (lut : Option (Nat → Nat)) (r : ReadResult)
    (hr : r = _cupsImageReadJPEG ext maxW maxH hdr exif rows outBuf0 img0
        primary secondary saturation hue lut) :
    (∀ (rowsB : Nat → List Nat) (outBufB : List Nat),
      (_cupsImageReadJPEG ext maxW maxH hdr exif rowsB outBufB img0
          primary secondary saturation hue lut).img = r.img) ∧
    (¬(hdr.output_width = 0 ∨ hdr.output_width > maxW ∨
       hdr.output_height = 0 ∨ hdr.output_height > maxH) →
      r.img.xppi = exifAxis (exif.bind ExifData.entryX)
        (resolveHeaderDensity hdr.xDensity hdr.yDensity hdr.densityUnit
          { img0 with
              colorspace := (plan hdr.num_components primary secondary).colorspace
              xsize := hdr.output_width
              ysize := hdr.output_height }).xppi ∧
      r.img.yppi = exifAxis (exif.bind ExifData.entryY)
        (resolveHeaderDensity hdr.xDensity hdr.yDensity hdr.densityUnit
          { img0 with
              colorspace := (plan hdr.num_components primary secondary).colorspace
              xsize := hdr.output_width
              ysize := hdr.output_height }).yppi) := by
  subst hr
  constructor
  · intro rowsB outBufB
    by_cases hgeom : hdr.output_width = 0 ∨ hdr.output_width > maxW ∨
        hdr.output_height = 0 ∨ hdr.output_height > maxH
    · simp only [_cupsImageReadJPEG]
      rw [if_pos hgeom, if_pos hgeom]
    · rw [readJPEG_success ext maxW maxH hdr exif rowsB outBufB img0
          primary secondary saturation hue lut hgeom,
        readJPEG_success ext maxW maxH hdr exif rows outBuf0 img0
          primary secondary saturation hue lut hgeom]
  · intro hgeom
    rw [readJPEG_success ext maxW maxH hdr exif rows outBuf0 img0
        primary secondary saturation hue lut hgeom]
    exact ⟨readEXIF_xppi _ _, readEXIF_yppi _ _⟩

/-- Witness for C1 amended, exercising the centimeter unit: header
densities (100, 100, unit 2) resolve to (254, 254), and an EXIF X tag
of `72` then overrides the x axis, giving final resolution (72, 254). -/
theorem C1_exif_overrides_header_witness :
    (_cupsImageReadJPEG idExt 1000 1000 ⟨3, 1, 1, 100, 100, 2, []⟩
        (some ⟨some ['7', '2'], none⟩) (fun _ => [0, 0, 0]) [] imgInit
        Icspace.RGB Icspace.WHITE 100 0 none).img.xppi = 72 ∧
    (_cupsImageReadJPEG idExt 1000 1000 ⟨3, 1, 1, 100, 100, 2, []⟩
        (some ⟨some ['7', '2'], none⟩) (fun _ => [0, 0, 0]) [] imgInit
        Icspace.RGB Icspace.WHITE 100 0 none).img.yppi = 254 := by
  have h := C1_exif_overrides_header idExt 1000 1000
    ⟨3, 1, 1, 100, 100, 2, []⟩ (some ⟨some ['7', '2'], none⟩)
    (fun _ => [0, 0, 0]) [] imgInit Icspace.RGB Icspace.WHITE 100 0 none
    _ rfl
  have h2 := h.2 (by decide)
  constructor
  · rw [h2.1]; decide
  · rw [h2.2]; decide

/-- C4 counterexample: with absent header density fields and an EXIF
X-resolution tag reading `0` — a present, successfully parsing fallback
value — the decode ends with xppi = 0, violating the claimed xppi ≥ 1
for a decode that reaches row processing. -/
theorem C4_counterexample :
    (_cupsImageReadJPEG idExt 1000 1000 ⟨3, 1, 1, 0, 0, 0, []⟩
        (some ⟨some ['0'], none⟩) (fun _ => [0, 0, 0]) [] imgInit
        Icspace.RGB Icspace.WHITE 100 0 none).status = 0 ∧
    (_cupsImageReadJPEG idExt 1000 1000 ⟨3, 1, 1, 0, 0, 0, []⟩
        (some ⟨some ['0'], none⟩) (fun _ => [0, 0, 0]) [] imgInit
        Icspace.RGB Icspace.WHITE 100 0 none).img.xppi = 0 ∧
    ¬(1 ≤ (_cupsImageReadJPEG idExt 1000 1000 ⟨3, 1, 1, 0, 0, 0, []⟩
        (some ⟨some ['0'], none⟩) (fun _ => [0, 0, 0]) [] imgInit
        Icspace.RGB Icspace.WHITE 100 0 none).img.xppi) := by decide

/-- C4 amended: on the good-geometry path, provided the caller's prior
resolution is at least 1 on each axis (the façade's 200 default) and
every fallback tag that parses yields a value ≥ 1, the final
resolution satisfies xppi ≥ 1 and yppi ≥ 1 — a fallback tag parsing to
a non-positive integer is stored unchecked, which is what the
counterexample exhibits.  When the header density fields are absent or
invalid and no fallback tag is present, the resolution stays at the
prior (200, 200). -/
theorem C4_resolution_bounds (ext : ExtFuns) (maxW maxH : Nat)
    (hdr : JpegHeader) (exif : Option ExifData) (rows : Nat → List Nat)
    (outBuf0 : List Nat) (img0 : Img) (primary secondary : Icspace)
    (saturation hue : Int) (lut : Option (Nat → Nat)) (r : ReadResult)
    (hr : r = _cupsImageReadJPEG ext maxW maxH hdr exif rows outBuf0 img0
        primary secondary saturation hue lut)
    (hgeom : ¬(hdr.output_width = 0 ∨ hdr.output_width > maxW ∨
               hdr.output_height = 0 ∨ hdr.output_height > maxH))
    (hpx : 1 ≤ img0.xppi) (hpy : 1 ≤ img0.yppi)
    (hX : ∀ (v : List Char) (n : Int), exif.bind ExifData.entryX = some v →
      sscanf_d (trim_spaces v) = some n → 1 ≤ n)
    (hY : ∀ (v : List Char) (n : Int), exif.bind ExifData.entryY = some v →
      sscanf_d (trim_spaces v) = some n → 1 ≤ n) :
    (1 ≤ r.img.xppi ∧ 1 ≤ r.img.yppi) ∧
    (¬(hdr.xDensity > 0 ∧ hdr.yDensity > 0 ∧ hdr.densityUnit > 0) →
      exif.bind ExifData.entryX = none → exif.bind ExifData.entryY = none →
      img0.xppi = 200 → img0.yppi = 200 →
      r.img.xppi = 200 ∧ r.img.yppi = 200) := by
  subst hr
  rw [readJPEG_success ext maxW maxH hdr exif rows outBuf0 img0
      primary secondary saturation hue lut hgeom]
  constructor
  · constructor
    · rw [readEXIF_xppi]
      exact exifAxis_pos _ _
        ((resolveHeaderDensity_pos hdr.xDensity hdr.yDensity hdr.densityUnit
          { img0 with
              colorspace := (plan hdr.num_components primary secondary).colorspace
              xsize := hdr.output_width
              ysize := hdr.output_height } hpx hpy).1) hX
    · rw [readEXIF_yppi]
      exact exifAxis_pos _ _
        ((resolveHeaderDensity_pos hdr.xDensity hdr.yDensity hdr.densityUnit
          { img0 with
              colorspace := (plan hdr.num_components primary secondary).colorspace
              xsize := hdr.output_width
              ysize := hdr.output_height } hpx hpy).2) hY
  · intro hinv hbx hby h200x h200y
    constructor
    · rw [readEXIF_xppi, hbx, resolveHeaderDensity_invalid _ _ _ _ hinv]
      exact h200x
    · rw [readEXIF_yppi, hby, resolveHeaderDensity_invalid _ _ _ _ hinv]
      exact h200y

/-- Witness for C4 amended: with no header density and no EXIF block,
the decode keeps the default (200, 200). -/
theorem C4_resolution_bounds_witness :
    (1 ≤ (_cupsImageReadJPEG idExt 1000 1000 ⟨3, 1, 1, 0, 0, 0, []⟩ none
        (fun _ => [0, 0, 0]) [] imgInit Icspace.RGB Icspace.WHITE
        100 0 none).img.xppi) ∧
    (_cupsImageReadJPEG idExt 1000 1000 ⟨3, 1, 1, 0, 0, 0, []⟩ none
        (fun _ => [0, 0, 0]) [] imgInit Icspace.RGB Icspace.WHITE
        100 0 none).img.xppi = 200 ∧
    (_cupsImageReadJPEG idExt 1000 1000 ⟨3, 1, 1, 0, 0, 0, []⟩ none
        (fun _ => [0, 0, 0]) [] imgInit Icspace.RGB Icspace.WHITE
        100 0 none).img.yppi = 200 := by
  have h := C4_resolution_bounds idExt 1000 1000 ⟨3, 1, 1, 0, 0, 0, []⟩
    none (fun _ => [0, 0, 0]) [] imgInit Icspace.RGB Icspace.WHITE
    100 0 none _ rfl (by decide) (by decide) (by decide)
    (fun v n hv => by cases hv) (fun v n hv => by cases hv)
  have h2 := h.2 (by decide) rfl rfl rfl rfl
  exact ⟨h.1.1, h2.1, h2.2⟩

end ImageJPEG
